import Mathlib

/-!
Verification of the spatialdata-io readers (`merscope.py`, `read_visium.py`).

Shallow embedding conventions:
- pandas column names and file names are Lean `String`s (character lists for
  the substring/regex computations);
- numeric CSV/image values are `Rat` (the concrete inputs appearing in the
  claims are exactly representable in binary floating point, so the rational
  model is faithful at those inputs);
- a pandas dataframe row is an association list from column name to value;
- fallible steps (Python `assert`, `KeyError`) return `Except String _`.
-/

namespace SpatialdataIO

/-! ## Substring containment (pandas `str.contains` with a literal pattern) -/

/-- Bool test that `pat` occurs as a contiguous substring of `s`
(both as character lists). -/
def containsSubstr (pat : List Char) : List Char → Bool
  | [] => pat.isEmpty
  | s@(_ :: t) => pat.isPrefixOf s || containsSubstr pat t

/-! ## MERSCOPE counts-column partition (`merscope.py` lines 171-174)

`is_gene = ~data.columns.str.lower().str.contains("blank")`;
`adata.X` keeps the `is_gene` columns, `adata.obsm["blank"]` the rest. -/

/-- Embedding of the per-column test `column.lower().contains("blank")`
(`str.lower` applied character by character; the pattern `"blank"` has no
regex metacharacters, so pandas `str.contains` is substring containment). -/
def columnHasBlank (c : String) : Bool :=
  containsSubstr "blank".data (c.data.map Char.toLower)

/-- Embedding of the `is_gene` mask for one column name. -/
def isGeneColumn (c : String) : Bool :=
  ! columnHasBlank c

/-- Columns kept in the main expression matrix (`data.loc[:, is_gene]`). -/
def geneColumns (cols : List String) : List String :=
  cols.filter fun c => isGeneColumn c

/-- Columns moved to the blank side-table (`data.loc[:, ~is_gene]`). -/
def blankColumns (cols : List String) : List String :=
  cols.filter fun c => ! isGeneColumn c

/-! ## MERSCOPE region value (`merscope.py` line 176)

`adata.obs["region"] = pd.Series(path.stem, index=adata.obs_names, dtype="category")`.
A filesystem path is modelled as its nonempty list of segments. -/

/-- Index of the last occurrence of `c` in `l` (Python `str.rfind`,
with `none` for "not found"). -/
def rfindChar (l : List Char) (c : Char) : Option Nat :=
  ((List.range l.length).filter fun i => l.get? i == some c).getLast?

/-- Embedding of Python `pathlib.PurePath.stem` applied to a path's final
segment `name`: drop the last `.`-suffix when the last dot sits strictly
inside the name (`0 < i < len(name) - 1`), else return `name` unchanged. -/
def pyStem (name : String) : String :=
  let l := name.data
  match rfindChar l '.' with
  | none => name
  | some i => if 0 < i ∧ i + 1 < l.length then String.mk (l.take i) else name

/-- The value the reader stores in the `region` column: `path.stem`,
where the path is given by its list of segments. -/
def regionValue (pathSegments : List String) : String :=
  pyStem (pathSegments.getLastD "")

/-- Embedding of the `region` obs column: one entry per obs row,
all equal to `path.stem`. -/
def regionColumn (pathSegments : List String) (obsNames : List String) :
    List String :=
  obsNames.map fun _ => regionValue pathSegments

/-! ## Visium scale transform (`read_visium.py` lines 65-66)

`scale_factors = np.array([1.0] + [1 / scalefactors["tissue_hires_scalef"]] * 2)`.
Per the design, entry 0 is the channel-axis factor and the two remaining
entries are the two spatial-axis factors. -/

/-- Embedding of the derived scale-factor vector. -/
def visiumScaleFactors (tissueHiresScalef : Rat) : List Rat :=
  [1] ++ List.replicate 2 (1 / tissueHiresScalef)

/-! ## Visium hires-image check and rescale (`read_visium.py` lines 60-62)

`assert img.dtype == np.float32 and np.min(img) >= 0. and np.max(img) <= 1.`
then `img = (img * 255).astype(np.uint8)`. -/

/-- The numpy dtypes relevant to the image check. -/
inductive NpDtype
  | float32
  | float64
  | uint8
  | uint16
  | int32
  | int64
deriving DecidableEq, Repr

/-- Whether a dtype is one of the integer dtypes. -/
def NpDtype.isInteger : NpDtype → Bool
  | .uint8 | .uint16 | .int32 | .int64 => true
  | .float32 | .float64 => false

/-- The hires image: its dtype and its flattened pixel values. -/
structure HiresImage where
  dtype : NpDtype
  values : List Rat
deriving DecidableEq, Repr

/-- Embedding of the assertion plus the 8-bit rescale.  The `uint8` cast
truncates toward zero; the asserted bounds make every `v * 255`
nonnegative, so truncation is `Int.floor`. -/
def visiumCheckAndRescale (img : HiresImage) : Except String (List Int) :=
  if img.dtype = NpDtype.float32 ∧ ∀ v ∈ img.values, 0 ≤ v ∧ v ≤ 1 then
    .ok (img.values.map fun v => ⌊v * 255⌋)
  else
    .error "AssertionError"

/-! ## Visium library-count assertion (`read_visium.py` lines 28-30)

`libraries = list(adata.uns["spatial"].keys()); assert len(libraries) == 1;
lib = libraries[0]`. -/

/-- Embedding of the library extraction guarded by the count assertion. -/
def readVisiumLibraries (libraries : List String) : Except String String :=
  if libraries.length = 1 then .ok (libraries.headD "") else .error "AssertionError"

/-! ## MERSCOPE file-path resolver (`merscope.py` lines 35-76) -/

namespace MerscopeKeys

/-- Modelled from the spec: the default counts filename
(`spatialdata_io._constants._constants.MerscopeKeys` is not part of the
sources; the spec's layout table gives `cell_by_gene.csv`). -/
def COUNTS_FILE : String := "cell_by_gene.csv"

/-- Modelled from the spec: the default per-cell metadata filename
(spec layout table: `cell_metadata.csv`). -/
def CELL_METADATA_FILE : String := "cell_metadata.csv"

/-- Modelled from the spec: the default boundary parquet filename
(the constants module is missing; the spec only says "boundary parquet
(default name)"). -/
def BOUNDARIES_FILE : String := "cell_boundaries.parquet"

/-- Modelled from the spec: the cellpose-style boundary candidate filename
(the constants module is missing; the spec says "two fixed candidate names
(cellpose-style, watershed-style)"). -/
def CELLPOSE_BOUNDARIES : String := "cellpose_micron_space.parquet"

/-- Modelled from the spec: the watershed-style boundary candidate filename. -/
def WATERSHED_BOUNDARIES : String := "watershed_micron_space.parquet"

end MerscopeKeys

/-- The non-`None` forms of the `vpt_outputs` argument: a directory path or a
dictionary carrying the three paths directly. -/
inductive VptOutputs
  | path (dir : String)
  | dict (counts obs boundaries : String)
deriving DecidableEq, Repr

/-- Path concatenation, `dir / file`. -/
def joinPath (dir file : String) : String := dir ++ "/" ++ file

/-- Embedding of `_get_file_paths`: resolve (counts, cell metadata, boundaries).
The filesystem is abstracted as the predicate `fileExists`; the Python
`assert` with its f-string message becomes the `Except.error` case. -/
def getFilePaths (fileExists : String → Bool) (path : String)
    (vptOutputs : Option VptOutputs) : Except String (String × String × String) :=
  match vptOutputs with
  | none =>
    .ok (joinPath path MerscopeKeys.COUNTS_FILE,
         joinPath path MerscopeKeys.CELL_METADATA_FILE,
         joinPath path MerscopeKeys.BOUNDARIES_FILE)
  | some (.path dir) =>
    let plausibleBoundaries :=
      [joinPath dir MerscopeKeys.CELLPOSE_BOUNDARIES,
       joinPath dir MerscopeKeys.WATERSHED_BOUNDARIES]
    let validBoundaries := plausibleBoundaries.filter fileExists
    match validBoundaries with
    | [] =>
      .error ("Boundary file not found - expected to find one of these files: "
        ++ joinPath dir MerscopeKeys.CELLPOSE_BOUNDARIES ++ ", "
        ++ joinPath dir MerscopeKeys.WATERSHED_BOUNDARIES)
    | b :: _ =>
      .ok (joinPath dir MerscopeKeys.COUNTS_FILE,
           joinPath dir MerscopeKeys.CELL_METADATA_FILE, b)
  | some (.dict counts obs boundaries) => .ok (counts, obs, boundaries)

/-! ## MERSCOPE transcript z-splitting (`merscope.py` lines 148-156)

`z = transcripts["z"].compute(); z_levels = sorted(z.value_counts().index,
key=int); for z_level in z_levels: subset = transcripts[z == z_level];
subset = subset.drop("z", axis=1); points[f"transcripts_z..."] = subset`.

A transcript row is an association list from column name to (integer)
value; the z coordinates of a MERSCOPE transcript table are integer
z-levels. -/

/-- A dataframe row: column name to value. -/
abbrev TRow := List (String × Int)

/-- Value of column `c` in row `r`, when present. -/
def getCol (r : TRow) (c : String) : Option Int :=
  (r.find? fun p => p.1 == c).map fun p => p.2

/-- Embedding of `row.drop(c)`: remove every entry of column `c`. -/
def dropCol (r : TRow) (c : String) : TRow :=
  r.filter fun p => p.1 != c

/-- The z column of the transcript table, row by row. -/
def zValues (rows : List TRow) : List Int :=
  rows.filterMap fun r => getCol r "z"

/-- The distinct z-levels, sorted ascending (the `sorted(..., key=int)`). -/
def zLevelsSorted (rows : List TRow) : List Int :=
  List.insertionSort (· ≤ ·) (zValues rows).dedup

/-- Embedding of the point-layer loop: one named layer per distinct z-level,
in ascending z order, each layer holding that level's rows with the z
column dropped. -/
def mkPointLayers (rows : List TRow) : List (String × List TRow) :=
  (zLevelsSorted rows).map fun z =>
    ("transcripts_z" ++ toString z,
     (rows.filter fun r => getCol r "z" == some z).map fun r => dropCol r "z")

/-! ## MERSCOPE boundary filtering (`merscope.py` lines 159-164)

`geo_df = geo_df[geo_df["ZIndex"] == 0];
geo_df.index = geo_df["EntityID"].astype(str)`. -/

/-- One row of the boundary parquet: instance id, z index, and an opaque
geometry payload distinguishing rows. -/
structure BRow where
  entityId : Int
  zIndex : Int
  geomId : Nat
deriving DecidableEq, Repr

/-- Embedding of the z-index-0 filter producing the shape layer's rows. -/
def boundaryLayer (rows : List BRow) : List BRow :=
  rows.filter fun r => r.zIndex == 0

/-- Embedding of the shape layer's index: the string form of the instance
identifier column of the retained rows. -/
def boundaryIndex (rows : List BRow) : List String :=
  (boundaryLayer rows).map fun r => toString r.entityId

/-! ## MERSCOPE image filename scanner (`merscope.py` lines 20-32)

`exp = r"mosaic_(?P<stain>[\w|-]+[0-9]?)_z(?P<z>[0-9]+).tif"` applied with
`re.search` to each file name; the distinct `stain` captures and the
distinct `z` captures (digit strings) are returned as two sets.

The matcher below is that specific regex, with Python's backtracking
semantics specialised to it:
- `re.search` tries start positions left to right; the pattern starts with
  the literal `mosaic_`;
- `[\w|-]+[0-9]?` is greedy: since `[0-9]` is contained in `[\w|-]`, the
  consumed spans tried are the prefixes of the maximal `[\w|-]` run, from
  longest to shortest, each of length at least 1;
- `[0-9]+` is greedy: digit-run prefixes from longest to shortest, length
  at least 1;
- the unescaped `.` before `tif` matches any single character;
- the pattern is unanchored, so trailing characters are ignored.
Word characters are modelled as ASCII `[A-Za-z0-9_]` (the file names in
play are ASCII). -/

/-- ASCII model of the regex class `\w`. -/
def isWordChar (c : Char) : Bool := c.isAlpha || c.isDigit || c == '_'

/-- The regex class `[\w|-]`. -/
def isStainChar (c : Char) : Bool := isWordChar c || c == '|' || c == '-'

/-- The literal `tif` tail of the pattern. -/
def tifLit : List Char := ['t', 'i', 'f']

/-- The literal `mosaic_` head of the pattern. -/
def mosaicLit : List Char := ['m', 'o', 's', 'a', 'i', 'c', '_']

/-- Backtracking over the greedy `[0-9]+` capture: `drun` is the maximal
digit run at the head of `rest`, and candidates of length `n, n-1, ..., 1`
are tried; after the digits one arbitrary character (the unescaped `.`)
and then the literal `tif` must follow. Returns the `z` capture. -/
def tryZLen (drun rest : List Char) : Nat → Option (List Char)
  | 0 => none
  | n + 1 =>
    match rest.drop (n + 1) with
    | _ :: t =>
      if tifLit.isPrefixOf t then some (drun.take (n + 1)) else tryZLen drun rest n
    | [] => tryZLen drun rest n

/-- Match `_z(?P<z>[0-9]+).tif` at the head of the input, returning the
`z` capture. -/
def matchAfterStain : List Char → Option (List Char)
  | '_' :: 'z' :: rest =>
    let drun := rest.takeWhile Char.isDigit
    tryZLen drun rest drun.length
  | _ => none

/-- Backtracking over the greedy stain group: `run` is the maximal
`[\w|-]` run at the head of `s`, and stain candidates of length
`m, m-1, ..., 1` are tried. Returns the (stain, z) captures. -/
def tryStainLen (run s : List Char) : Nat → Option (List Char × List Char)
  | 0 => none
  | m + 1 =>
    match matchAfterStain (s.drop (m + 1)) with
    | some zCap => some (run.take (m + 1), zCap)
    | none => tryStainLen run s m

/-- Match the pattern right after a `mosaic_` literal. -/
def matchMosaicTail (s : List Char) : Option (List Char × List Char) :=
  let run := s.takeWhile isStainChar
  tryStainLen run s run.length

/-- Embedding of `re.search` with the scanner pattern: try each start
position left to right, full backtracking at each. -/
def searchMosaic : List Char → Option (List Char × List Char)
  | [] => none
  | c :: t =>
    match (if mosaicLit.isPrefixOf (c :: t) then matchMosaicTail (List.drop 7 (c :: t)) else none) with
    | some m => some m
    | none => searchMosaic t

/-- Embedding of `_scan_images` on the directory's file-name list: the
distinct stain captures and the distinct z captures of the files where the
search succeeds. (Python returns two sets; the model returns deduplicated
lists and the theorems speak about membership.) -/
def scanImages (files : List String) : List String × List String :=
  let found := files.filterMap fun f => searchMosaic f.data
  ((found.map fun m => String.mk m.1).dedup,
   (found.map fun m => String.mk m.2).dedup)

/-! The pattern as the specification's words state it, for comparison with
the code's `re.search` behaviour: the whole file name is
`mosaic_<stain>_z<digits>.tif` with a literal dot, `<stain>` a nonempty run
of word characters, pipes, or hyphens (the "optionally followed by a single
trailing digit" adds nothing, digits being word characters), and `<digits>`
nonempty. -/

/-- A valid `<stain>` per the spec's pattern description. -/
def specStainOk (l : List Char) : Bool := !l.isEmpty && l.all isStainChar

/-- A valid `<digits>` per the spec's pattern description. -/
def specDigitsOk (l : List Char) : Bool := !l.isEmpty && l.all Char.isDigit

/-- The literal `.tif` ending of the spec's pattern. -/
def dotTif : List Char := ['.', 't', 'i', 'f']

/-- Whether the middle part (between `mosaic_` and `.tif`) splits as
`<stain>_z<digits>`. -/
def specMidOk (mid : List Char) : Bool :=
  (List.range (mid.length + 1)).any fun k =>
    specStainOk (mid.take k) &&
    (match mid.drop k with
     | '_' :: 'z' :: ds => specDigitsOk ds
     | _ => false)

/-- Whether a file name matches the pattern `mosaic_<stain>_z<digits>.tif`
as the specification describes it (whole name, literal dot). -/
def specNameMatches (name : String) : Bool :=
  let l := name.data
  mosaicLit.isPrefixOf l && dotTif.isSuffixOf l && decide (11 ≤ l.length) &&
  specMidOk ((l.drop 7).take ((l.drop 7).length - 4))

/-! ## Helper lemmas -/

/-- A list is a `isPrefixOf`-prefix of itself followed by anything. -/
theorem isPrefixOf_self_append (p s : List Char) : p.isPrefixOf (p ++ s) = true := by
  induction p with
  | nil => simp [List.isPrefixOf]
  | cons a t ih => simp [List.isPrefixOf, ih]

/-- `containsSubstr` finds a pattern planted in the middle of a list. -/
theorem containsSubstr_append (pre pat suf : List Char) :
    containsSubstr pat (pre ++ (pat ++ suf)) = true := by
  induction pre with
  | nil =>
    cases pat with
    | nil => cases suf <;> simp [containsSubstr]
    | cons a p =>
      have h := isPrefixOf_self_append (a :: p) suf
      simp only [List.cons_append] at h ⊢
      simp [containsSubstr, h]
  | cons a t ih =>
    simp [containsSubstr, ih]

/-- Looking up a column after dropping it yields nothing. -/
theorem getCol_dropCol (r : TRow) (c : String) : getCol (dropCol r c) c = none := by
  have h : List.find? (fun p => p.1 == c) (List.filter (fun p => p.1 != c) r) = none := by
    rw [List.find?_eq_none]
    intro x hx
    have hx2 := (List.mem_filter.mp hx).2
    simp only [bne_iff_ne, ne_eq] at hx2
    simp [hx2]
  simp [getCol, dropCol, h]

/-- `rfindChar` misses characters that are not in the list. -/
theorem rfindChar_eq_none {l : List Char} {c : Char} (h : c ∉ l) :
    rfindChar l c = none := by
  unfold rfindChar
  have hf : (List.range l.length).filter (fun i => l.get? i == some c) = [] := by
    rw [List.filter_eq_nil_iff]
    intro i _
    intro hcontra
    rw [beq_iff_eq] at hcontra
    exact h (List.get?_mem hcontra)
  rw [hf]
  rfl

/-! ## Claim theorems -/

/-- C1: for every list of counts column names, each column lands in the main
expression matrix exactly when its lower-cased name does not contain
`"blank"` and in the blank side-table exactly when it does; the two parts
are disjoint and jointly exhaustive.  Concretely, `Blank-3` is routed to
the blank side-table and `ABCD1` to the main matrix. -/
theorem merscope_gene_blank_partition :
    (∀ (cols : List String) (c : String), c ∈ cols →
      ((c ∈ geneColumns cols ↔ columnHasBlank c = false)
        ∧ (c ∈ blankColumns cols ↔ columnHasBlank c = true)
        ∧ ¬(c ∈ geneColumns cols ∧ c ∈ blankColumns cols)
        ∧ (c ∈ geneColumns cols ∨ c ∈ blankColumns cols)))
    ∧ blankColumns ["Blank-3", "ABCD1"] = ["Blank-3"]
    ∧ geneColumns ["Blank-3", "ABCD1"] = ["ABCD1"] := by
  refine ⟨?_, by decide, by decide⟩
  intro cols c hc
  have hg : c ∈ geneColumns cols ↔ columnHasBlank c = false := by
    simp [geneColumns, isGeneColumn, List.mem_filter, hc]
  have hb : c ∈ blankColumns cols ↔ columnHasBlank c = true := by
    simp [blankColumns, isGeneColumn, List.mem_filter, hc]
  refine ⟨hg, hb, ?_, ?_⟩
  · rintro ⟨h1, h2⟩
    rw [hg] at h1
    rw [hb] at h2
    rw [h1] at h2
    cases h2
  · cases hcb : columnHasBlank c
    · exact Or.inl (hg.mpr hcb)
    · exact Or.inr (hb.mpr hcb)

/-- Witness for C1 at a concrete column list. -/
theorem merscope_gene_blank_partition_witness :
    "Blank-3" ∈ blankColumns ["Blank-3", "ABCD1"]
    ∧ "ABCD1" ∈ geneColumns ["Blank-3", "ABCD1"] := by
  have h := merscope_gene_blank_partition
  exact ⟨(h.1 ["Blank-3", "ABCD1"] "Blank-3" (by decide)).2.1.mpr (by decide),
         (h.1 ["Blank-3", "ABCD1"] "ABCD1" (by decide)).1.mpr (by decide)⟩

/-- C4: with `tissue_hires_scalef = 0.5` the derived scale-factor vector is
`[1, 2, 2]`: factor `1` on the leading channel axis and factor `2` (the
inverse of the scale factor) on each of the two spatial axes. -/
theorem visium_scale_factors_half :
    visiumScaleFactors (1/2) = [1, 2, 2]
    ∧ (visiumScaleFactors (1/2)).headD 0 = 1
    ∧ ∀ f ∈ (visiumScaleFactors (1/2)).tail, f = 2 := by
  refine ⟨?_, ?_, ?_⟩ <;> norm_num [visiumScaleFactors, List.replicate]

/-- C9: the Visium reader's library extraction succeeds exactly when the
metadata holds one library; with zero libraries, or more than one, it
fails with the assertion error. -/
theorem visium_single_library (libraries : List String) :
    ((∃ lib, readVisiumLibraries libraries = .ok lib) ↔ libraries.length = 1)
    ∧ (libraries.length ≠ 1 →
        readVisiumLibraries libraries = .error "AssertionError") := by
  constructor
  · unfold readVisiumLibraries
    by_cases h : libraries.length = 1 <;> simp [h]
  · intro h
    unfold readVisiumLibraries
    rw [if_neg h]

/-- Witness for C9: zero libraries and two libraries both fail, one
library succeeds. -/
theorem visium_single_library_witness :
    readVisiumLibraries [] = .error "AssertionError"
    ∧ readVisiumLibraries ["libA", "libB"] = .error "AssertionError"
    ∧ (∃ lib, readVisiumLibraries ["libA"] = .ok lib) :=
  ⟨(visium_single_library []).2 (by decide),
   (visium_single_library ["libA", "libB"]).2 (by decide),
   (visium_single_library ["libA"]).1.mpr rfl⟩

/-- C10: the image assertion demands the dtype be exactly `float32`: any
other dtype fails the check even when every value lies in `[0, 1]`. -/
theorem visium_requires_float32 (d : NpDtype) (vals : List Rat)
    (hd : d ≠ NpDtype.float32) (_hv : ∀ v ∈ vals, 0 ≤ v ∧ v ≤ 1) :
    visiumCheckAndRescale ⟨d, vals⟩ = .error "AssertionError" := by
  unfold visiumCheckAndRescale
  rw [if_neg]
  rintro ⟨h1, _⟩
  exact hd h1

/-- Witness for C10: a normalized `float64` image is rejected. -/
theorem visium_requires_float32_witness :
    visiumCheckAndRescale ⟨NpDtype.float64, [1/2]⟩ = .error "AssertionError" :=
  visium_requires_float32 NpDtype.float64 [1/2] (by decide) (by norm_num)

/-- C2: the reader produces one point layer per distinct z-level of the
transcript table, visits the z-levels in ascending order, names the layers
by the z-level, and no produced layer retains a z column. -/
theorem merscope_point_layers (rows : List TRow) :
    (mkPointLayers rows).length = (zValues rows).dedup.length
    ∧ List.Sorted (· < ·) (zLevelsSorted rows)
    ∧ (∀ z : Int, z ∈ zLevelsSorted rows ↔ z ∈ zValues rows)
    ∧ (mkPointLayers rows).map Prod.fst =
        (zLevelsSorted rows).map (fun z => "transcripts_z" ++ toString z)
    ∧ (∀ p ∈ mkPointLayers rows, ∀ r ∈ p.2, getCol r "z" = none) := by
  refine ⟨?_, ?_, ?_, ?_, ?_⟩
  · rw [mkPointLayers, List.length_map]
    exact (List.perm_insertionSort _ _).length_eq
  · have hs : List.Sorted (· ≤ ·) (zLevelsSorted rows) :=
      List.sorted_insertionSort _ _
    have hn : (zLevelsSorted rows).Nodup :=
      ((List.perm_insertionSort _ _).nodup_iff).mpr (List.nodup_dedup _)
    exact hs.lt_of_le hn
  · intro z
    rw [zLevelsSorted, (List.perm_insertionSort _ _).mem_iff, List.mem_dedup]
  · rw [mkPointLayers, List.map_map]
    rfl
  · intro p hp r hr
    rw [mkPointLayers, List.mem_map] at hp
    rcases hp with ⟨z, _, rfl⟩
    rw [List.mem_map] at hr
    rcases hr with ⟨r0, _, rfl⟩
    exact getCol_dropCol r0 "z"

/-- Witness for C2 at a three-row transcript table with z-levels 1, 0, 1. -/
theorem merscope_point_layers_witness :
    (mkPointLayers [[("x", 1), ("z", 1)], [("x", 3), ("z", 0)],
        [("x", 5), ("z", 1)]]).length = 2
    ∧ getCol [("x", 3)] "z" = none := by
  have h := merscope_point_layers
    [[("x", 1), ("z", 1)], [("x", 3), ("z", 0)], [("x", 5), ("z", 1)]]
  constructor
  · rw [h.1]
    decide
  · exact h.2.2.2.2 ("transcripts_z0", [[("x", 3)]]) (by decide)
      [("x", 3)] (by decide)

/-- C3 counterexample: a boundary file whose z-index-0 slice holds two rows
with the same instance identifier; the produced layer keeps both, so it
does not have exactly one row per distinct identifier of that slice. -/
theorem merscope_boundary_layer_cex :
    (7 : Int) ∈ (boundaryLayer [⟨7, 0, 0⟩, ⟨7, 0, 1⟩]).map (fun r => r.entityId)
    ∧ ((boundaryLayer [⟨7, 0, 0⟩, ⟨7, 0, 1⟩]).map (fun r => r.entityId)).count 7
        = 2 := by
  decide

/-- C3 amended: the shape layer retains exactly the rows whose z-index is
zero and is indexed by the string form of the instance identifier; when
the instance identifiers are pairwise distinct within the z-index-0 slice,
the layer has exactly one row per distinct identifier of that slice. -/
theorem merscope_boundary_layer (rows : List BRow)
    (h : ((boundaryLayer rows).map (fun r => r.entityId)).Nodup) :
    (∀ r, r ∈ boundaryLayer rows ↔ r ∈ rows ∧ r.zIndex = 0)
    ∧ (∀ i ∈ (boundaryLayer rows).map (fun r => r.entityId),
        ((boundaryLayer rows).map (fun r => r.entityId)).count i = 1)
    ∧ boundaryIndex rows = (boundaryLayer rows).map (fun r => toString r.entityId)
    := by
  refine ⟨?_, ?_, rfl⟩
  · intro r
    simp [boundaryLayer, List.mem_filter]
  · intro i hi
    exact List.count_eq_one_of_mem h hi

/-- Witness for C3 at a file with one z-0 row and one z-1 row. -/
theorem merscope_boundary_layer_witness :
    ((boundaryLayer [⟨1, 0, 0⟩, ⟨2, 1, 1⟩]).map (fun r => r.entityId)).count 1 = 1
    ∧ boundaryIndex [⟨1, 0, 0⟩, ⟨2, 1, 1⟩] = ["1"] := by
  have h := merscope_boundary_layer [⟨1, 0, 0⟩, ⟨2, 1, 1⟩] (by decide)
  refine ⟨h.2.1 1 (by decide), ?_⟩
  rw [h.2.2]
  decide

/-- C5 counterexample: a root directory whose final segment is `run.1`; the
code stores `path.stem`, which is `run`, not the final path segment
`run.1`. -/
theorem merscope_region_value_cex :
    regionValue ["data", "run.1"] = "run"
    ∧ ["data", "run.1"].getLastD "" = "run.1"
    ∧ regionValue ["data", "run.1"] ≠ ["data", "run.1"].getLastD "" := by
  refine ⟨by decide, by decide, by decide⟩

/-- C5 amended: the `region` column assigns one single value to every cell
row, namely `path.stem` — the final path segment with its last dot-suffix
removed when that dot sits strictly inside the segment; whenever the final
segment contains no dot, the value is the final path segment itself. -/
theorem merscope_region_column (pathSegments obsNames : List String) :
    (regionColumn pathSegments obsNames).length = obsNames.length
    ∧ (∀ v ∈ regionColumn pathSegments obsNames, v = regionValue pathSegments)
    ∧ ('.' ∉ (pathSegments.getLastD "").data →
        regionValue pathSegments = pathSegments.getLastD "") := by
  refine ⟨List.length_map _ _, ?_, ?_⟩
  · intro v hv
    rw [regionColumn, List.mem_map] at hv
    rcases hv with ⟨_, _, rfl⟩
    rfl
  · intro hdot
    rw [regionValue, pyStem, rfindChar_eq_none hdot]

/-- Witness for C5 at a dot-free directory name and two obs rows. -/
theorem merscope_region_column_witness :
    (regionColumn ["data", "sample1"] ["cellA", "cellB"]).length = 2
    ∧ regionValue ["data", "sample1"] = "sample1" := by
  have h := merscope_region_column ["data", "sample1"] ["cellA", "cellB"]
  exact ⟨h.1, h.2.2 (by decide)⟩

/-- C7 counterexample: a `float64` image fully normalized to `[0, 1]` is a
floating-point normalized image, yet the code raises the assertion error
instead of rescaling it. -/
theorem visium_image_check_cex :
    NpDtype.isInteger NpDtype.float64 = false
    ∧ (∀ v ∈ [(1 : Rat)/2], 0 ≤ v ∧ v ≤ 1)
    ∧ visiumCheckAndRescale ⟨NpDtype.float64, [1/2]⟩ = .error "AssertionError"
    := by
  refine ⟨rfl, by norm_num, ?_⟩
  unfold visiumCheckAndRescale
  rw [if_neg]
  rintro ⟨hd, _⟩
  cases hd

/-- C7 amended: an image of integer dtype, or with a value outside
`[0, 1]`, makes the reader raise the assertion error and never rescale;
an image of dtype `float32` with all values in `[0, 1]` is rescaled to the
8-bit integer range (each value `v` becomes the truncation of `v * 255`). -/
theorem visium_image_check (img : HiresImage) :
    ((img.dtype.isInteger = true ∨ ∃ v ∈ img.values, v < 0 ∨ 1 < v) →
      visiumCheckAndRescale img = .error "AssertionError")
    ∧ ((img.dtype = NpDtype.float32 ∧ ∀ v ∈ img.values, 0 ≤ v ∧ v ≤ 1) →
      visiumCheckAndRescale img = .ok (img.values.map fun v => ⌊v * 255⌋)) := by
  constructor
  · intro h
    unfold visiumCheckAndRescale
    rw [if_neg]
    rintro ⟨hd, hall⟩
    rcases h with hint | ⟨v, hv, hout⟩
    · rw [hd] at hint
      cases hint
    · rcases hall v hv with ⟨h0, h1⟩
      rcases hout with hlt | hgt
      · exact absurd h0 (not_le.mpr hlt)
      · exact absurd h1 (not_le.mpr hgt)
  · intro h
    unfold visiumCheckAndRescale
    rw [if_pos h]

/-- Witness for C7: a uint8 image is rejected; a normalized float32 image
with the single value one half is rescaled to 127. -/
theorem visium_image_check_witness :
    visiumCheckAndRescale ⟨NpDtype.uint8, [2]⟩ = .error "AssertionError"
    ∧ visiumCheckAndRescale ⟨NpDtype.float32, [1/2]⟩ = .ok [127] := by
  constructor
  · exact (visium_image_check ⟨NpDtype.uint8, [2]⟩).1 (Or.inl rfl)
  · have h := (visium_image_check ⟨NpDtype.float32, [1/2]⟩).2 ⟨rfl, by norm_num⟩
    rw [h]
    norm_num

/-- C8: with a directory-form `vpt_outputs` under which neither the
cellpose-style nor the watershed-style boundary candidate exists, the
resolver yields no path triple but a configuration error whose message
contains both attempted candidate paths. -/
theorem merscope_boundary_candidates_error (fileExists : String → Bool)
    (dir : String)
    (h1 : fileExists (joinPath dir MerscopeKeys.CELLPOSE_BOUNDARIES) = false)
    (h2 : fileExists (joinPath dir MerscopeKeys.WATERSHED_BOUNDARIES) = false) :
    ∀ path, ∃ msg,
      getFilePaths fileExists path (some (.path dir)) = .error msg
      ∧ containsSubstr (joinPath dir MerscopeKeys.CELLPOSE_BOUNDARIES).data
          msg.data = true
      ∧ containsSubstr (joinPath dir MerscopeKeys.WATERSHED_BOUNDARIES).data
          msg.data = true := by
  intro path
  refine ⟨"Boundary file not found - expected to find one of these files: "
    ++ joinPath dir MerscopeKeys.CELLPOSE_BOUNDARIES ++ ", "
    ++ joinPath dir MerscopeKeys.WATERSHED_BOUNDARIES, ?_, ?_, ?_⟩
  · simp [getFilePaths, h1, h2]
  · have h := containsSubstr_append
      "Boundary file not found - expected to find one of these files: ".data
      (joinPath dir MerscopeKeys.CELLPOSE_BOUNDARIES).data
      (", " ++ joinPath dir MerscopeKeys.WATERSHED_BOUNDARIES).data
    simpa [List.append_assoc] using h
  · have h := containsSubstr_append
      ("Boundary file not found - expected to find one of these files: "
        ++ joinPath dir MerscopeKeys.CELLPOSE_BOUNDARIES ++ ", ").data
      (joinPath dir MerscopeKeys.WATERSHED_BOUNDARIES).data
      []
    simpa [List.append_assoc] using h

/-- Witness for C8 on an empty filesystem and the directory `vpt`. -/
theorem merscope_boundary_candidates_error_witness :
    ∃ msg, getFilePaths (fun _ => false) "root" (some (.path "vpt"))
        = .error msg
      ∧ containsSubstr (joinPath "vpt" MerscopeKeys.CELLPOSE_BOUNDARIES).data
          msg.data = true
      ∧ containsSubstr (joinPath "vpt" MerscopeKeys.WATERSHED_BOUNDARIES).data
          msg.data = true :=
  merscope_boundary_candidates_error (fun _ => false) "vpt" rfl rfl "root"

/-- C6 counterexample: the code's `re.search` with the unescaped dot admits
file names the claim's pattern `mosaic_<stain>_z<digits>.tif` rejects: a
name with leading junk before `mosaic_` and a name whose dot is replaced
by another character are both scanned as stain `DAPI`, z-level `0`,
instead of being ignored. -/
theorem merscope_scan_images_cex :
    specNameMatches "Xmosaic_DAPI_z0.tif" = false
    ∧ scanImages ["Xmosaic_DAPI_z0.tif"] = (["DAPI"], ["0"])
    ∧ specNameMatches "mosaic_DAPI_z0xtif" = false
    ∧ scanImages ["mosaic_DAPI_z0xtif"] = (["DAPI"], ["0"]) := by
  refine ⟨rfl, rfl, rfl, rfl⟩

/-- C6 amended: the scanner returns the set of distinct captured stain
names and the set of distinct captured z digit-strings of exactly the
files whose names contain a match of the regex
`mosaic_(?P<stain>[\w|-]+[0-9]?)_z(?P<z>[0-9]+).tif` under Python
`re.search` semantics (so the match may start anywhere in the name and the
unescaped dot matches any character), silently ignoring files where the
search fails; for the files `mosaic_DAPI_z0.tif`, `mosaic_DAPI_z1.tif`,
`mosaic_PolyT_z0.tif` and `notes.txt` it returns stains `{DAPI, PolyT}`
and z-levels `{0, 1}`. -/
theorem merscope_scan_images :
    (∀ (files : List String) (s : String),
      s ∈ (scanImages files).1 ↔
        ∃ f ∈ files, ∃ m, searchMosaic f.data = some m ∧ String.mk m.1 = s)
    ∧ (∀ (files : List String) (zs : String),
      zs ∈ (scanImages files).2 ↔
        ∃ f ∈ files, ∃ m, searchMosaic f.data = some m ∧ String.mk m.2 = zs)
    ∧ (∀ s, s ∈ (scanImages ["mosaic_DAPI_z0.tif", "mosaic_DAPI_z1.tif",
        "mosaic_PolyT_z0.tif", "notes.txt"]).1 ↔ (s = "DAPI" ∨ s = "PolyT"))
    ∧ (∀ zs, zs ∈ (scanImages ["mosaic_DAPI_z0.tif", "mosaic_DAPI_z1.tif",
        "mosaic_PolyT_z0.tif", "notes.txt"]).2 ↔ (zs = "0" ∨ zs = "1")) := by
  refine ⟨?_, ?_, ?_, ?_⟩
  · intro files s
    simp only [scanImages, List.mem_dedup, List.mem_map, List.mem_filterMap]
    constructor
    · rintro ⟨m, ⟨f, hf, hm⟩, hs⟩
      exact ⟨f, hf, m, hm, hs⟩
    · rintro ⟨f, hf, m, hm, hs⟩
      exact ⟨m, ⟨f, hf, hm⟩, hs⟩
  · intro files zs
    simp only [scanImages, List.mem_dedup, List.mem_map, List.mem_filterMap]
    constructor
    · rintro ⟨m, ⟨f, hf, hm⟩, hs⟩
      exact ⟨f, hf, m, hm, hs⟩
    · rintro ⟨f, hf, m, hm, hs⟩
      exact ⟨m, ⟨f, hf, hm⟩, hs⟩
  · intro s
    rw [show (scanImages ["mosaic_DAPI_z0.tif", "mosaic_DAPI_z1.tif",
      "mosaic_PolyT_z0.tif", "notes.txt"]).1 = ["DAPI", "PolyT"] from rfl]
    simp
  · intro zs
    rw [show (scanImages ["mosaic_DAPI_z0.tif", "mosaic_DAPI_z1.tif",
      "mosaic_PolyT_z0.tif", "notes.txt"]).2 = ["1", "0"] from rfl]
    simp [or_comm]

/-- Witness for C6: `DAPI` is among the stains scanned from the four
example files. -/
theorem merscope_scan_images_witness :
    "DAPI" ∈ (scanImages ["mosaic_DAPI_z0.tif", "mosaic_DAPI_z1.tif",
        "mosaic_PolyT_z0.tif", "notes.txt"]).1 :=
  (merscope_scan_images.2.2.1 "DAPI").mpr (Or.inl rfl)

end SpatialdataIO
